import Mathlib

/-!
Shallow embedding of the camera/projection subsystem (src/unnamed/part_000)
and the image loading/displaying module (src/src/image/loading_displaying.js)
of this repository. JS numbers are modelled as rationals; JS optional
arguments as Option values; the falsy-coalescing pattern as jsOr.
-/

namespace P5

/-- The JS numeric coalescing pattern `v || d` used throughout the source for
argument defaulting: an omitted argument (undefined) and an explicitly passed
zero both yield the default. -/
def jsOr (v : Option ℚ) (d : ℚ) : ℚ :=
  match v with
  | none => d
  | some x => if x = 0 then d else x

/-- Modelled from the spec: p5.Matrix (its module is not under src/) per spec
section 4.1 - identity, perspective and ortho constructors. The matrix is
represented symbolically by which constructor built it and with which
arguments, which is all the claims about part_000 inspect. -/
inductive PMatrix where
  | identity : PMatrix
  | perspective (fovy aspect near far : ℚ) : PMatrix
  | ortho (left right bottom top near far : ℚ) : PMatrix
deriving DecidableEq

/-- The p5 sketch/renderer state visible to part_000: the surface size and the
trig collaborators read off `this` (width, height, PI, tan), the renderer
projection matrix `uPMatrix`, the `_curCamera` flag, and the translation
component of the renderer model-view matrix (mutated by `camera`). -/
structure P5State where
  width : ℚ
  height : ℚ
  PI : ℚ
  tan : ℚ → ℚ
  uPMatrix : PMatrix
  curCamera : String
  viewT : ℚ × ℚ × ℚ

/-- Modelled from the spec: p5.RendererGL.translate (not under src/) composes
a translation onto the current model-view matrix (spec section 4.1 `translate`
and the Design Notes on cumulative composition); on the translation component
tracked here, composing translations adds the offsets. -/
def rendererTranslate (dx dy dz : ℚ) (s : P5State) : P5State :=
  { s with viewT := (s.viewT.1 + dx, s.viewT.2.1 + dy, s.viewT.2.2 + dz) }

/-- p5.prototype.camera (part_000, lines 37-40): translates the model-view
matrix by (-x, -y, -z). -/
def camera (x y z : ℚ) (s : P5State) : P5State :=
  rendererTranslate (-x) (-y) (-z) s

/-- p5.prototype.perspective (part_000, lines 81-89): default each falsy
argument, then replace uPMatrix with a fresh perspective matrix and set
_curCamera to custom. -/
def perspective (fovy0 aspect0 near0 far0 : Option ℚ) (s : P5State) : P5State :=
  let fovy := jsOr fovy0 (60 / 180 * s.PI)
  let aspect := jsOr aspect0 (s.width / s.height)
  let near := jsOr near0 (s.height / 2 / s.tan (fovy / 2) * (1 / 10))
  let far := jsOr far0 (s.height / 2 / s.tan (fovy / 2) * 10)
  { s with uPMatrix := PMatrix.perspective fovy aspect near far,
           curCamera := "custom" }

/-- p5.prototype.ortho (part_000, lines 129-139): default each falsy argument,
then replace uPMatrix with a fresh ortho matrix and set _curCamera to
custom. -/
def ortho (left0 right0 bottom0 top0 near0 far0 : Option ℚ) (s : P5State) :
    P5State :=
  let left := jsOr left0 (-(s.width / 2))
  let right := jsOr right0 (s.width / 2)
  let bottom := jsOr bottom0 (-(s.height / 2))
  let top := jsOr top0 (s.height / 2)
  let near := jsOr near0 0
  let far := jsOr far0 (max s.width s.height)
  { s with uPMatrix := PMatrix.ortho left right bottom top near far,
           curCamera := "custom" }

/-- The commands this core exposes on the camera state. -/
inductive Cmd where
  | cam (x y z : ℚ)
  | persp (fovy aspect near far : Option ℚ)
  | orth (left right bottom top near far : Option ℚ)

/-- One command applied to the state. -/
def step (c : Cmd) (s : P5State) : P5State :=
  match c with
  | .cam x y z => camera x y z s
  | .persp fovy aspect near far => perspective fovy aspect near far s
  | .orth l r b t n f => ortho l r b t n f s

/-- A sequence of commands applied in program order. -/
def runCmds (cs : List Cmd) (s : P5State) : P5State :=
  match cs with
  | [] => s
  | c :: rest => runCmds rest (step c s)

/-- _sAssign (loading_displaying.js, lines 118-125): keep sVal only when it is
strictly between 0 and iVal, otherwise use iVal. -/
def _sAssign (sVal iVal : ℚ) : ℚ :=
  if sVal > 0 ∧ sVal < iVal then sVal else iVal

/-- The source-rectangle resolution step of p5.prototype.image
(loading_displaying.js, lines 207-217) for a canvas-backed image, whose
default source dimensions defW/defH are the image natural width/height
(lines 197-198): default sx/sy to 0 and sWidth/sHeight to defW/defH, then
clamp each dimension independently through _sAssign. Returns
(_sx, _sy, _sw, _sh). -/
def resolveSrcRect (defW defH : ℚ) (sx sy sWidth sHeight : Option ℚ) :
    ℚ × ℚ × ℚ × ℚ :=
  (jsOr sx 0, jsOr sy 0,
   _sAssign (jsOr sWidth defW) defW,
   _sAssign (jsOr sHeight defH) defH)

/-- Modelled from the spec: the recognized placement-mode constant CORNER
(core/constants is not under src/; the spec names exactly three recognized
constants). -/
def CORNER : String := "corner"

/-- Modelled from the spec: the recognized placement-mode constant CORNERS. -/
def CORNERS : String := "corners"

/-- Modelled from the spec: the recognized placement-mode constant CENTER. -/
def CENTER : String := "center"

/-- p5.prototype.imageMode (loading_displaying.js, lines 451-457): store the
argument as the renderer _imageMode only when it is one of the three
recognized constants; any other value leaves the stored mode unchanged, and
no error path exists (the function is total). -/
def imageMode (m : String) (stored : String) : String :=
  if m = CORNER ∨ m = CORNERS ∨ m = CENTER then m else stored

/-- Round half to even: the rounding a JS engine applies when a number is
stored into a Uint8ClampedArray element (ImageData.data), as the tint loop
does on lines 376-379. -/
def roundHalfEven (q : ℚ) : ℤ :=
  if q - (⌊q⌋ : ℚ) < 1 / 2 then ⌊q⌋
  else if (1 : ℚ) / 2 < q - (⌊q⌋ : ℚ) then ⌊q⌋ + 1
  else if ⌊q⌋ % 2 = 0 then ⌊q⌋ else ⌊q⌋ + 1

/-- Storing a JS number into a Uint8ClampedArray element: clamp to [0, 255]
and round half to even. -/
def toU8 (q : ℚ) : ℕ :=
  if q ≤ 0 then 0
  else if 255 ≤ q then 255
  else (roundHalfEven q).toNat

/-- One channel of the tint blend (loading_displaying.js, lines 376-379):
`v * tint / 255`, stored into the Uint8ClampedArray output buffer. -/
def scaleChannel (v t : ℕ) : ℕ := toU8 ((v * t : ℚ) / 255)

/-- The per-pixel body of the tint loop: each of the four channels scaled
independently by its tint channel. -/
def tintQuad (t0 t1 t2 t3 : ℕ) (p : ℕ × ℕ × ℕ × ℕ) : ℕ × ℕ × ℕ × ℕ :=
  (scaleChannel p.1 t0, scaleChannel p.2.1 t1,
   scaleChannel p.2.2.1 t2, scaleChannel p.2.2.2 t3)

/-- The tint loop of _getTintedImageCanvas (loading_displaying.js, lines
370-380): walk the flat RGBA buffer four entries at a time. A pixel buffer
produced by createImageData always has length 4 * width * height, so the
trailing non-quadruple case is unreachable on real buffers. -/
def tintLoop (t0 t1 t2 t3 : ℕ) : List ℕ → List ℕ
  | r :: g :: b :: a :: rest =>
      scaleChannel r t0 :: scaleChannel g t1 :: scaleChannel b t2 ::
        scaleChannel a t3 :: tintLoop t0 t1 t2 t3 rest
  | rest => rest

/-- The part of a p5.Image that _getTintedImageCanvas inspects: either a
readable backing canvas, abstracted to its flat RGBA pixel buffer as returned
by Filters._toPixels, or none (for example a pass-through video surface). -/
structure TintImg where
  canvasPixels : Option (List ℕ)
deriving DecidableEq

/-- The value _getTintedImageCanvas returns: the input image itself, or a
fresh canvas abstracted to its pixel buffer. -/
inductive TintResult where
  | passthrough (img : TintImg)
  | tinted (pixels : List ℕ)
deriving DecidableEq

/-- p5.prototype._getTintedImageCanvas (loading_displaying.js, lines 358-384)
with the renderer tint levels (t0, t1, t2, t3): if the image has no canvas,
return the image unchanged; otherwise run the tint loop over its pixels. -/
def _getTintedImageCanvas (t0 t1 t2 t3 : ℕ) (img : TintImg) : TintResult :=
  match img.canvasPixels with
  | none => TintResult.passthrough img
  | some pixels => TintResult.tinted (tintLoop t0 t1 t2 t3 pixels)

/-- A list of RGBA quadruples laid out as the flat buffer ImageData uses. -/
def flattenQuads (qs : List (ℕ × ℕ × ℕ × ℕ)) : List ℕ :=
  match qs with
  | [] => []
  | p :: rest => p.1 :: p.2.1 :: p.2.2.1 :: p.2.2.2 :: flattenQuads rest

/-- The dimension fields of a p5.Image that loadImage touches: width/height of
the image object and of its backing canvas. -/
structure PImg where
  width : ℕ
  height : ℕ
  canvasWidth : ℕ
  canvasHeight : ℕ
deriving DecidableEq

/-- Modelled from the spec: the p5.Image constructor (its module is not under
src/) creates a bitmap of the given width and height (spec section 3, Bitmap);
loadImage (loading_displaying.js, line 68) invokes it with (1, 1) and returns
the result synchronously. -/
def loadImageInit : PImg :=
  { width := 1, height := 1, canvasWidth := 1, canvasHeight := 1 }

/-- The two terminal outcomes of the asynchronous load started by loadImage. -/
inductive LoadEvent where
  | success (w h : ℕ)
  | failure

/-- The callbacks loadImage installs (loading_displaying.js, lines 71-92):
onload copies the decoded dimensions onto the returned p5.Image and its
backing canvas; onerror reports the failure and leaves the image dimensions
untouched. -/
def loadImageEvent (e : LoadEvent) (pImg : PImg) : PImg :=
  match e with
  | .success w h =>
      { pImg with width := w, canvasWidth := w, height := h, canvasHeight := h }
  | .failure => pImg

/-- A concrete sketch state used by the counterexamples and witnesses: a
100 x 100 surface, identity projection, default camera, view translation at
the origin. The PI and tan collaborator fields are irrelevant to the
fully-explicit calls made on it. -/
def s0 : P5State :=
  { width := 100, height := 100, PI := 3, tan := fun q => q,
    uPMatrix := PMatrix.identity, curCamera := "default", viewT := (0, 0, 0) }

end P5

namespace P5

theorem toU8_le (q : ℚ) : toU8 q ≤ 255 := by
  unfold toU8
  split_ifs with h1 h2
  · norm_num
  · norm_num
  · have hq : q < 255 := not_le.mp h2
    have hf : roundHalfEven q ≤ ⌊q⌋ + 1 := by
      unfold roundHalfEven; split_ifs <;> omega
    have h255 : ⌊q⌋ < (255 : ℤ) := Int.floor_lt.mpr (by exact_mod_cast hq)
    exact Int.toNat_le.mpr (by omega)

theorem tintLoop_flatten (t0 t1 t2 t3 : ℕ) (qs : List (ℕ × ℕ × ℕ × ℕ)) :
    tintLoop t0 t1 t2 t3 (flattenQuads qs) =
      flattenQuads (qs.map (tintQuad t0 t1 t2 t3)) := by
  induction qs with
  | nil => rfl
  | cons p rest ih => simp [flattenQuads, tintLoop, tintQuad, ih]

theorem step_preserves_custom (c : Cmd) (s : P5State)
    (h : s.curCamera = "custom") : (step c s).curCamera = "custom" := by
  cases c with
  | cam x y z => simpa [step, camera, rendererTranslate] using h
  | persp fovy aspect near far => rfl
  | orth l r b t n f => rfl

/-- C1: _sAssign returns the requested dimension exactly when it is strictly
between 0 and the default, and the default otherwise; the image source
rectangle applies it independently to width and height; with defW = 200,
sWidth = 0 resolves to 200 and sWidth = 500 resolves to 200. -/
theorem C1_source_rect_clamp :
    (∀ sw defW : ℚ, 0 < sw → sw < defW → _sAssign sw defW = sw) ∧
    (∀ sw defW : ℚ, sw ≤ 0 ∨ defW ≤ sw → _sAssign sw defW = defW) ∧
    (∀ (defW defH : ℚ) (sx sy sW sH : Option ℚ),
      (resolveSrcRect defW defH sx sy sW sH).2.2.1 = _sAssign (jsOr sW defW) defW ∧
      (resolveSrcRect defW defH sx sy sW sH).2.2.2 = _sAssign (jsOr sH defH) defH) ∧
    (resolveSrcRect 200 200 none none (some 0) none).2.2.1 = 200 ∧
    (resolveSrcRect 200 200 none none (some 500) none).2.2.1 = 200 := by
  refine ⟨?_, ?_, ?_, ?_, ?_⟩
  · intro sw defW h1 h2; simp [_sAssign, h1, h2]
  · intro sw defW h
    have hn : ¬ (sw > 0 ∧ sw < defW) := by
      rintro ⟨h1, h2⟩; rcases h with h | h <;> linarith
    simp [_sAssign, hn]
  · intro defW defH sx sy sW sH; exact ⟨rfl, rfl⟩
  · norm_num [resolveSrcRect, _sAssign, jsOr]
  · norm_num [resolveSrcRect, _sAssign, jsOr]

theorem C1_source_rect_clamp_witness :
    _sAssign 50 200 = 50 ∧ _sAssign 500 200 = 200 ∧
    (resolveSrcRect 200 100 none none (some 50) (some 500)).2.2.1 =
      _sAssign (jsOr (some 50) 200) 200 :=
  ⟨C1_source_rect_clamp.1 50 200 (by norm_num) (by norm_num),
   C1_source_rect_clamp.2.1 500 200 (Or.inr (by norm_num)),
   (C1_source_rect_clamp.2.2.1 200 100 none none (some 50) (some 500)).1⟩

/-- C2: on a readable pixel buffer the tint compositor maps every source
pixel (r,g,b,a) to (r*t0/255, g*t1/255, b*t2/255, a*t3/255), each channel
scaled independently and stored as an 8-bit integer (always at most 255);
tint (0,153,204,255) on opaque white (255,255,255,255) gives exactly
(0,153,204,255). -/
theorem C2_tint_per_pixel :
    (∀ (t0 t1 t2 t3 : ℕ) (quads : List (ℕ × ℕ × ℕ × ℕ)) (img : TintImg),
      img.canvasPixels = some (flattenQuads quads) →
      _getTintedImageCanvas t0 t1 t2 t3 img =
        TintResult.tinted (flattenQuads (quads.map (tintQuad t0 t1 t2 t3)))) ∧
    (∀ v t : ℕ, scaleChannel v t ≤ 255) ∧
    tintQuad 0 153 204 255 (255, 255, 255, 255) = (0, 153, 204, 255) := by
  refine ⟨?_, ?_, ?_⟩
  · intro t0 t1 t2 t3 quads img h
    simp [_getTintedImageCanvas, h, tintLoop_flatten]
  · intro v t; exact toU8_le _
  · norm_num [tintQuad, scaleChannel, toU8, roundHalfEven]; decide

theorem C2_tint_per_pixel_witness :
    _getTintedImageCanvas 0 153 204 255 { canvasPixels := some [255, 255, 255, 255] } =
      TintResult.tinted [0, 153, 204, 255] ∧ scaleChannel 10 20 ≤ 255 := by
  constructor
  · have h := C2_tint_per_pixel.1 0 153 204 255 [(255, 255, 255, 255)]
      { canvasPixels := some [255, 255, 255, 255] } rfl
    rw [h]
    norm_num [flattenQuads, tintQuad, scaleChannel, toU8, roundHalfEven]
    decide
  · exact C2_tint_per_pixel.2.1 10 20

/-- C3 (counterexample): calling perspective with explicit far = 1 strictly
below near = 2 is not rejected: the projection matrix is constructed from
exactly those invalid parameters and installed, and _curCamera is set to
custom, contradicting the claim that invalid parameters are reported to the
caller before any projection matrix is constructed. -/
theorem C3_counterexample :
    (1 : ℚ) < 2 ∧
    (perspective (some 2) (some 1) (some 2) (some 1) s0).uPMatrix =
      PMatrix.perspective 2 1 2 1 ∧
    (perspective (some 2) (some 1) (some 2) (some 1) s0).curCamera = "custom" := by
  refine ⟨by norm_num, ?_, rfl⟩
  norm_num [perspective, jsOr]

/-- C3 (amended): perspective and ortho perform no parameter validation: for
every truthy argument list, including invalid ones (far below near, degenerate
boxes), the projection matrix is constructed from exactly those arguments,
installed, and _curCamera set to custom; no error is ever reported. -/
theorem C3_no_validation :
    (∀ (fovy aspect near far : ℚ) (s : P5State),
      fovy ≠ 0 → aspect ≠ 0 → near ≠ 0 → far ≠ 0 →
      (perspective (some fovy) (some aspect) (some near) (some far) s).uPMatrix =
        PMatrix.perspective fovy aspect near far ∧
      (perspective (some fovy) (some aspect) (some near) (some far) s).curCamera =
        "custom") ∧
    (∀ (l r b t n f : ℚ) (s : P5State),
      l ≠ 0 → r ≠ 0 → b ≠ 0 → t ≠ 0 → n ≠ 0 → f ≠ 0 →
      (ortho (some l) (some r) (some b) (some t) (some n) (some f) s).uPMatrix =
        PMatrix.ortho l r b t n f ∧
      (ortho (some l) (some r) (some b) (some t) (some n) (some f) s).curCamera =
        "custom") := by
  constructor
  · intro fovy aspect near far s h1 h2 h3 h4
    exact ⟨by simp [perspective, jsOr, h1, h2, h3, h4], rfl⟩
  · intro l r b t n f s h1 h2 h3 h4 h5 h6
    exact ⟨by simp [ortho, jsOr, h1, h2, h3, h4, h5, h6], rfl⟩

theorem C3_no_validation_witness :
    (perspective (some 2) (some 1) (some 3) (some 1) s0).uPMatrix =
      PMatrix.perspective 2 1 3 1 ∧
    (ortho (some 5) (some 5) (some 1) (some 2) (some 3) (some 3) s0).uPMatrix =
      PMatrix.ortho 5 5 1 2 3 3 :=
  ⟨(C3_no_validation.1 2 1 3 1 s0 (by norm_num) (by norm_num) (by norm_num)
      (by norm_num)).1,
   (C3_no_validation.2 5 5 1 2 3 3 s0 (by norm_num) (by norm_num) (by norm_num)
      (by norm_num) (by norm_num) (by norm_num)).1⟩

/-- C4 (counterexample): starting from a state whose view translation is
(0,0,0), camera (0,0,100) followed by camera (0,0,0) leaves the view
translation at (0,0,-100), not (0,0,0): the second command does not replace
the first, contradicting the claim that camera commands are absolute. -/
theorem C4_counterexample :
    s0.viewT = (0, 0, 0) ∧
    (camera 0 0 0 (camera 0 0 100 s0)).viewT = (0, 0, -100) ∧
    (camera 0 0 0 (camera 0 0 100 s0)).viewT ≠ (0, 0, 0) := by
  refine ⟨rfl, ?_, ?_⟩ <;> norm_num [camera, rendererTranslate, s0]

/-- C4 (amended): each camera command composes cumulatively onto the existing
view matrix: camera (x,y,z) shifts the view translation by (-x,-y,-z) relative
to its current value, so two consecutive commands shift by the sum of their
offsets; in particular (0,0,100) then (0,0,0) leaves the translation at
(0,0,-100) relative to the original. -/
theorem C4_camera_cumulative :
    ∀ (s : P5State) (x y z x2 y2 z2 : ℚ),
      (camera x y z s).viewT =
        (s.viewT.1 - x, s.viewT.2.1 - y, s.viewT.2.2 - z) ∧
      (camera x2 y2 z2 (camera x y z s)).viewT =
        (s.viewT.1 - (x + x2), s.viewT.2.1 - (y + y2), s.viewT.2.2 - (z + z2)) := by
  intro s x y z x2 y2 z2
  constructor <;> simp [camera, rendererTranslate, Prod.ext_iff] <;>
    refine ⟨by ring, by ring, by ring⟩

/-- C5: with every argument omitted, perspective builds its matrix from
fovy = 60/180*PI, aspect = width/height, near = (height/2)/tan(fovy/2)*0.1 and
far = (height/2)/tan(fovy/2)*10, and ortho from left = -width/2,
right = width/2, bottom = -height/2, top = height/2, near = 0 and
far = max(width, height), all read off the active surface state. -/
theorem C5_default_projection_params :
    ∀ s : P5State,
      (perspective none none none none s).uPMatrix =
        PMatrix.perspective (60 / 180 * s.PI) (s.width / s.height)
          (s.height / 2 / s.tan (60 / 180 * s.PI / 2) * (1 / 10))
          (s.height / 2 / s.tan (60 / 180 * s.PI / 2) * 10) ∧
      (ortho none none none none none none s).uPMatrix =
        PMatrix.ortho (-(s.width / 2)) (s.width / 2) (-(s.height / 2))
          (s.height / 2) 0 (max s.width s.height) :=
  fun _ => ⟨rfl, rfl⟩

/-- C6: the falsy-coalescing defaulting makes an explicitly passed zero
indistinguishable from an omitted argument, in each of the four parameter
positions of perspective. -/
theorem C6_explicit_zero_defaults :
    ∀ (fovy aspect near far : Option ℚ) (s : P5State),
      perspective (some 0) aspect near far s = perspective none aspect near far s ∧
      perspective fovy (some 0) near far s = perspective fovy none near far s ∧
      perspective fovy aspect (some 0) far s = perspective fovy aspect none far s ∧
      perspective fovy aspect near (some 0) s = perspective fovy aspect near none s := by
  have h : jsOr (some 0) = jsOr none := funext fun d => by simp [jsOr]
  intro fovy aspect near far s
  refine ⟨?_, ?_, ?_, ?_⟩ <;> simp [perspective, h]

/-- C7: imageMode stores a recognized constant (CORNER, CORNERS, CENTER) and
silently ignores every other value, keeping the previously stored mode; the
setter is a total function, so no error is ever raised. -/
theorem C7_imageMode_validated :
    (∀ m stored : String, m ≠ CORNER → m ≠ CORNERS → m ≠ CENTER →
      imageMode m stored = stored) ∧
    (∀ stored : String, imageMode CORNER stored = CORNER ∧
      imageMode CORNERS stored = CORNERS ∧ imageMode CENTER stored = CENTER) := by
  constructor
  · intro m stored h1 h2 h3; simp [imageMode, h1, h2, h3]
  · intro stored; refine ⟨?_, ?_, ?_⟩ <;> simp [imageMode]

theorem C7_imageMode_validated_witness :
    imageMode "diagonal" "corner" = "corner" :=
  C7_imageMode_validated.1 "diagonal" "corner" (by decide) (by decide) (by decide)

/-- C8: on an image exposing no readable pixel buffer, _getTintedImageCanvas
returns the image itself unchanged, for every tint. -/
theorem C8_tint_passthrough :
    ∀ (t0 t1 t2 t3 : ℕ) (img : TintImg), img.canvasPixels = none →
      _getTintedImageCanvas t0 t1 t2 t3 img = TintResult.passthrough img := by
  intro t0 t1 t2 t3 img h
  simp [_getTintedImageCanvas, h]

theorem C8_tint_passthrough_witness :
    _getTintedImageCanvas 1 2 3 4 { canvasPixels := none } =
      TintResult.passthrough { canvasPixels := none } :=
  C8_tint_passthrough 1 2 3 4 { canvasPixels := none } rfl

/-- C9: every invocation of perspective or ortho leaves _curCamera at custom,
and no sequence of camera/perspective/ortho commands ever moves it off
custom again. -/
theorem C9_custom_sticky :
    (∀ (fovy aspect near far : Option ℚ) (s : P5State),
      (perspective fovy aspect near far s).curCamera = "custom") ∧
    (∀ (l r b t n f : Option ℚ) (s : P5State),
      (ortho l r b t n f s).curCamera = "custom") ∧
    (∀ (cs : List Cmd) (s : P5State), s.curCamera = "custom" →
      (runCmds cs s).curCamera = "custom") := by
  refine ⟨fun _ _ _ _ _ => rfl, fun _ _ _ _ _ _ _ => rfl, ?_⟩
  intro cs
  induction cs with
  | nil => exact fun s h => h
  | cons c rest ih => exact fun s h => ih _ (step_preserves_custom c s h)

theorem C9_custom_sticky_witness :
    (runCmds [Cmd.cam 1 2 3] (perspective none none none none s0)).curCamera =
      "custom" :=
  C9_custom_sticky.2.2 [Cmd.cam 1 2 3] (perspective none none none none s0) rfl

/-- C10: loadImage synchronously returns a 1 x 1 image; only the onload
callback updates its dimensions (and those of its backing canvas) to the
decoded size, and the onerror path leaves them at 1 x 1. -/
theorem C10_loadImage_dims :
    loadImageInit.width = 1 ∧ loadImageInit.height = 1 ∧
    (∀ (w h : ℕ) (p : PImg),
      (loadImageEvent (LoadEvent.success w h) p).width = w ∧
      (loadImageEvent (LoadEvent.success w h) p).height = h ∧
      (loadImageEvent (LoadEvent.success w h) p).canvasWidth = w ∧
      (loadImageEvent (LoadEvent.success w h) p).canvasHeight = h) ∧
    (∀ p : PImg, loadImageEvent LoadEvent.failure p = p) ∧
    (loadImageEvent LoadEvent.failure loadImageInit).width = 1 ∧
    (loadImageEvent LoadEvent.failure loadImageInit).height = 1 :=
  ⟨rfl, rfl, fun _ _ _ => ⟨rfl, rfl, rfl, rfl⟩, fun _ => rfl, rfl, rfl⟩

end P5
